import Mathlib

/-!
Shallow embedding of the two checkout widgets in
src/custom/pages/fast-checkout.vue.

The first widget (Google Pay adapter) is modelled as a state machine:
an explicit record of its mutable refs and module-level variables
(status, loading, paymentsClient, buttonElement, the button container
contents, the injected script element) plus ghost observation fields
(the list of emitted events, the list of built payment-data requests,
the set of in-flight loadPaymentData promises, the number of backend
POSTs issued, and a flag recording that onBeforeUnmount has run).
Opaque vendor values (DOM button elements, paymentData objects,
promise identities) are modelled as natural-number identifiers.
Asynchronous vendor outcomes (script onload/onerror, isReadyToPay,
loadPaymentData settlement, fetch settlement) are supplied as explicit
parameters, since they are decided by the environment.

The second widget (Stripe payment-request button) only contributes the
totalAmount computation over the local-storage cart; product prices are
modelled as exact rationals and Math.round as Mathlib round, which is
floor of x + 1/2, matching the JavaScript half-up rounding rule.
-/

set_option autoImplicit false

namespace FastCheckout

/-- The component props, with the defaults from the source file. -/
structure Props where
  amount : String
  currency : String
  merchantName : String
  environment : String
  gateway : String
  gatewayMerchantId : String
  processEndpoint : String
  autoSendToServer : Bool
deriving Repr, DecidableEq

/-- The default prop values declared in defineProps. -/
def defaultProps : Props :=
  ⟨"1.00", "USD", "Example Merchant", "TEST", "example", "BCR2DN5T5CC5PV3C",
   "/process-payment", true⟩

/-- transactionInfo object of a payment-data request. -/
structure TransactionInfo where
  totalPriceStatus : String
  totalPrice : String
  currencyCode : String
deriving Repr, DecidableEq

/-- parameters of the tokenization specification. -/
structure GatewayParameters where
  gateway : String
  gatewayMerchantId : String
deriving Repr, DecidableEq

/-- tokenizationSpecification computed value. -/
structure TokenizationSpecification where
  type : String
  parameters : GatewayParameters
deriving Repr, DecidableEq

/-- billingAddressParameters of the card payment method. -/
structure BillingAddressParameters where
  format : String
deriving Repr, DecidableEq

/-- parameters of the card payment method. -/
structure CardParameters where
  allowedAuthMethods : List String
  allowedCardNetworks : List String
  billingAddressRequired : Bool
  billingAddressParameters : BillingAddressParameters
deriving Repr, DecidableEq

/-- cardPaymentMethod computed value. -/
structure CardPaymentMethod where
  type : String
  parameters : CardParameters
  tokenizationSpecification : TokenizationSpecification
deriving Repr, DecidableEq

/-- merchantInfo object of a payment-data request. -/
structure MerchantInfo where
  merchantName : String
deriving Repr, DecidableEq

/-- The payment-data request assembled by getPaymentDataRequest:
baseRequest fields plus allowedPaymentMethods, transactionInfo and
merchantInfo. -/
structure PaymentDataRequest where
  apiVersion : Nat
  apiVersionMinor : Nat
  allowedPaymentMethods : List CardPaymentMethod
  transactionInfo : TransactionInfo
  merchantInfo : MerchantInfo
deriving Repr, DecidableEq

/-- const allowedCardNetworks. -/
def allowedCardNetworks : List String := ["AMEX", "DISCOVER", "MASTERCARD", "VISA"]

/-- const allowedCardAuthMethods. -/
def allowedCardAuthMethods : List String := ["PAN_ONLY", "CRYPTOGRAM_3DS"]

/-- const tokenizationSpecification (computed from props). -/
def tokenizationSpecification (props : Props) : TokenizationSpecification :=
  ⟨"PAYMENT_GATEWAY", ⟨props.gateway, props.gatewayMerchantId⟩⟩

/-- const cardPaymentMethod (computed from props). -/
def cardPaymentMethod (props : Props) : CardPaymentMethod :=
  ⟨"CARD",
   ⟨allowedCardAuthMethods, allowedCardNetworks, true, ⟨"FULL"⟩⟩,
   tokenizationSpecification props⟩

/-- function getPaymentDataRequest(totalPrice, currencyCode): starts from
baseRequest (apiVersion 2, apiVersionMinor 0) and adds
allowedPaymentMethods, transactionInfo and merchantInfo. -/
def getPaymentDataRequest (props : Props) (totalPrice currencyCode : String) :
    PaymentDataRequest :=
  ⟨2, 0, [cardPaymentMethod props],
   ⟨"FINAL", totalPrice, currencyCode⟩,
   ⟨props.merchantName⟩⟩

/-- getPaymentDataRequest() as called with its default arguments
(totalPrice = props.amount, currencyCode = props.currency). -/
def getPaymentDataRequestDefault (props : Props) : PaymentDataRequest :=
  getPaymentDataRequest props props.amount props.currency

/-- The events the component can emit to the host page.  The payloads of
success are the opaque paymentData objects, modelled by identifiers; the
opaque error causes are not modelled. -/
inductive Event where
  | ready (available : Bool)
  | success (paymentData : Nat)
  | error
deriving Repr, DecidableEq

/-- Outcome of the fetch used to relay paymentData to the backend:
either the fetch promise resolved (with a response whose HTTP status may
or may not be 2xx and whose body may or may not parse as JSON), or it
rejected with a network error. -/
inductive FetchOutcome where
  | resolved (okStatus : Bool) (bodyParses : Bool)
  | rejected
deriving Repr, DecidableEq

/-- Outcome of paymentsClient.isReadyToPay: resolved with a result flag,
or threw. -/
inductive ReadyOutcome where
  | ok (result : Bool)
  | threw
deriving Repr, DecidableEq

/-- The component state: every ref and module-level variable of the
script, plus ghost fields that record the observable interactions
(events emitted, requests built, in-flight loadPaymentData promises,
backend POSTs issued, and whether onBeforeUnmount already ran).
googleApiPresent models whether window.google.payments.api exists;
paymentsClient and scriptEl are true when the corresponding variable is
non-null.  buttonContainer holds the identifiers of the DOM children of
the container div; nextElemId and nextReqId supply fresh identifiers. -/
structure AdapterState where
  googleApiPresent : Bool
  injectedScripts : Nat
  scriptEl : Bool
  paymentsClient : Bool
  buttonElement : Option Nat
  buttonContainer : List Nat
  nextElemId : Nat
  status : String
  loading : Bool
  events : List Event
  pending : List Nat
  nextReqId : Nat
  requests : List PaymentDataRequest
  posts : Nat
  tornDown : Bool
deriving Repr, DecidableEq

/-- The state at component setup. -/
def initialState : AdapterState :=
  ⟨false, 0, false, false, none, [], 0, "", true, [], [], 0, [], 0, false⟩

/-- function updateStatus(msg). -/
def updateStatus (msg : String) (s : AdapterState) : AdapterState :=
  { s with status := msg }

/-- function createAndAddButton(): returns early when paymentsClient is
null; removes the existing button element when the container contains
it; then creates a fresh button element and appends it to the
container. -/
def createAndAddButton (s : AdapterState) : AdapterState :=
  if s.paymentsClient = false then s
  else
    let s1 :=
      match s.buttonElement with
      | some b =>
          if b ∈ s.buttonContainer then
            { s with buttonContainer := s.buttonContainer.erase b, buttonElement := none }
          else s
      | none => s
    { s1 with
      buttonElement := some s1.nextElemId,
      buttonContainer := s1.buttonContainer ++ [s1.nextElemId],
      nextElemId := s1.nextElemId + 1 }

/-- function onGooglePayButtonClicked(): when paymentsClient is null it
only sets the status message; otherwise it builds the payment-data
request and calls paymentsClient.loadPaymentData, recorded here as a
fresh in-flight promise identifier. -/
def onGooglePayButtonClicked (props : Props) (s : AdapterState) : AdapterState :=
  if s.paymentsClient = false then
    updateStatus "Payments client not initialized." s
  else
    { s with
      requests := s.requests ++ [getPaymentDataRequestDefault props],
      pending := s.pending ++ [s.nextReqId],
      nextReqId := s.nextReqId + 1 }

/-- async function handlePaymentSuccess(paymentData): sets the status,
emits success, and when props.autoSendToServer holds it POSTs the
paymentData to props.processEndpoint.  The source never checks res.ok,
and res.json() failures are swallowed by a catch returning null, so any
resolved fetch reaches the processed-payment status; only a rejected
fetch reaches the catch block that sets the failure status and emits
error. -/
def handlePaymentSuccess (props : Props) (paymentData : Nat)
    (outcome : FetchOutcome) (s : AdapterState) : AdapterState :=
  let s1 := updateStatus "Payment authorized. Processing..." s
  let s2 := { s1 with events := s1.events ++ [Event.success paymentData] }
  if props.autoSendToServer then
    match outcome with
    | FetchOutcome.resolved _ _ =>
        updateStatus "Server processed payment." { s2 with posts := s2.posts + 1 }
    | FetchOutcome.rejected =>
        let s3 := updateStatus "Error sending token to server; see console."
          { s2 with posts := s2.posts + 1 }
        { s3 with events := s3.events ++ [Event.error] }
  else s2

/-- function loadGooglePayScript(): resolves immediately when
window.google.payments.api is present; otherwise appends a script
element and resolves or rejects according to whether the script loads.
Returns the new state and whether the returned promise resolved. -/
def loadGooglePayScript (scriptLoads : Bool) (s : AdapterState) :
    AdapterState × Bool :=
  if s.googleApiPresent then (s, true)
  else
    let s1 := { s with scriptEl := true, injectedScripts := s.injectedScripts + 1 }
    if scriptLoads then ({ s1 with googleApiPresent := true }, true)
    else (s1, false)

/-- function initPaymentsClient(). -/
def initPaymentsClient (s : AdapterState) : AdapterState :=
  { s with paymentsClient := true }

/-- async function initGooglePay(): loads the script (on failure sets
the status, clears loading and emits error), constructs the payments
client, queries isReadyToPay, and on a positive result emits ready true
and mounts the button, on a negative result emits ready false with the
unavailable status, and on a throw sets the error status and emits
error; loading is cleared in the finally block. -/
def initGooglePay (scriptLoads : Bool) (ready : ReadyOutcome)
    (s : AdapterState) : AdapterState :=
  let p := loadGooglePayScript scriptLoads s
  let s1 := p.1
  if p.2 = false then
    let sE := updateStatus "Could not load Google Pay script." s1
    { sE with loading := false, events := sE.events ++ [Event.error] }
  else
    let s2 := initPaymentsClient s1
    let s3 :=
      match ready with
      | ReadyOutcome.ok true =>
          let sA := { s2 with events := s2.events ++ [Event.ready true] }
          let sB := createAndAddButton sA
          updateStatus "Google Pay is available. Click the button to pay." sB
      | ReadyOutcome.ok false =>
          updateStatus "Google Pay is not available in this environment/profile."
            { s2 with events := s2.events ++ [Event.ready false] }
      | ReadyOutcome.threw =>
          let sA := updateStatus "Error checking Google Pay availability." s2
          { sA with events := sA.events ++ [Event.error] }
    { s3 with loading := false }

/-- onBeforeUnmount hook: removes the injected script element if one was
added, nulls the payments client, and removes the button element when
the container contains it.  The in-flight loadPaymentData promises are
left untouched: the source installs no guard on their then/catch
handlers.  tornDown is a ghost flag recording that this hook ran. -/
def onBeforeUnmount (s : AdapterState) : AdapterState :=
  let s1 := if s.scriptEl then { s with scriptEl := false } else s
  let s2 := { s1 with paymentsClient := false }
  let s3 :=
    match s2.buttonElement with
    | some b =>
        if b ∈ s2.buttonContainer then
          { s2 with buttonContainer := s2.buttonContainer.erase b, buttonElement := none }
        else s2
    | none => s2
  { s3 with tornDown := true }

/-- The externally visible actions after initialization: a user click on
the button, the unmount hook, and the settlement of an in-flight
loadPaymentData promise (resolution carries the opaque paymentData and
the outcome of the subsequent relay fetch; rejection reaches the catch
block of onGooglePayButtonClicked). -/
inductive Action where
  | click
  | teardown
  | resolvePayment (i paymentData : Nat) (outcome : FetchOutcome)
  | rejectPayment (i : Nat)
deriving Repr, DecidableEq

/-- One step of the event-driven execution. -/
def step (props : Props) (s : AdapterState) (a : Action) : AdapterState :=
  match a with
  | Action.click => onGooglePayButtonClicked props s
  | Action.teardown => onBeforeUnmount s
  | Action.resolvePayment i paymentData outcome =>
      if i ∈ s.pending then
        handlePaymentSuccess props paymentData outcome
          { s with pending := s.pending.erase i }
      else s
  | Action.rejectPayment i =>
      if i ∈ s.pending then
        let s1 := updateStatus "Payment cancelled or failed; check console."
          { s with pending := s.pending.erase i }
        { s1 with events := s1.events ++ [Event.error] }
      else s

/-- Run a list of actions from a state. -/
def run (props : Props) (s : AdapterState) (acts : List Action) : AdapterState :=
  acts.foldl (step props) s

/-- The state after a successful initialization with default props: the
script loads and isReadyToPay resolves positively. -/
def readyState : AdapterState :=
  initGooglePay true (ReadyOutcome.ok true) initialState

/-- Second widget: a product stored in the cart. -/
structure Product where
  name : String
  price : ℚ
deriving Repr, DecidableEq

/-- Second widget: a cart item read from local storage; qty is optional
and may be zero (falsy). -/
structure CartItem where
  product : Product
  qty : Option Nat
deriving Repr, DecidableEq

/-- The JavaScript expression item.qty or-else 1: a missing or zero
(falsy) qty yields 1. -/
def qtyOrOne (q : Option Nat) : Nat :=
  match q with
  | none => 1
  | some 0 => 1
  | some (n + 1) => n + 1

/-- The contribution of one cart item to the total:
Math.round(item.product.price * 100) times the effective quantity. -/
def itemAmount (it : CartItem) : ℤ :=
  round (it.product.price * 100) * (qtyOrOne it.qty : ℤ)

/-- Second widget computed totalAmount: cart.reduce over the items,
accumulating Math.round(item.product.price * 100) * (item.qty or 1)
starting from 0. -/
def totalAmount (cart : List CartItem) : ℤ :=
  cart.foldl (fun sum item => sum + round (item.product.price * 100) * (qtyOrOne item.qty : ℤ)) 0

end FastCheckout

namespace FastCheckout

lemma createAndAddButton_step (s : AdapterState)
    (hinv : s.buttonContainer = s.buttonElement.toList)
    (hc : s.paymentsClient = true) :
    (createAndAddButton s).buttonContainer = [s.nextElemId] ∧
    (createAndAddButton s).buttonElement = some s.nextElemId ∧
    (createAndAddButton s).paymentsClient = true := by
  unfold createAndAddButton
  rcases hb : s.buttonElement with _ | b
  · rw [hb] at hinv
    simp [hb, hc, hinv]
  · rw [hb] at hinv
    simp [hb, hc, hinv]

lemma createAndAddButton_inv_iterate (n : Nat) : ∀ s : AdapterState,
    s.buttonContainer = s.buttonElement.toList → s.paymentsClient = true →
    ((createAndAddButton^[n] s).buttonContainer =
        (createAndAddButton^[n] s).buttonElement.toList ∧
      (createAndAddButton^[n] s).paymentsClient = true) := by
  induction n with
  | zero => intro s h1 h2; exact ⟨h1, h2⟩
  | succ m ih =>
      intro s h1 h2
      rw [Function.iterate_succ_apply]
      obtain ⟨hc, he, hp⟩ := createAndAddButton_step s h1 h2
      exact ih _ (by rw [hc, he]; rfl) hp

end FastCheckout

namespace FastCheckout

/-- C1: on an initialized adapter (the payments client exists and the
container holds exactly the tracked button element, if any), calling
createAndAddButton any positive number of times leaves exactly one
button element attached to the button container: no duplicates
accumulate. -/
theorem mountButton_exactly_one (s : AdapterState)
    (hinv : s.buttonContainer = s.buttonElement.toList)
    (hc : s.paymentsClient = true) (n : Nat) (hn : 1 ≤ n) :
    (createAndAddButton^[n] s).buttonContainer.length = 1 := by
  obtain ⟨m, rfl⟩ : ∃ m, n = m + 1 :=
    ⟨n - 1, (Nat.succ_pred_eq_of_pos hn).symm⟩
  rw [Function.iterate_succ_apply']
  obtain ⟨hi, hp⟩ := createAndAddButton_inv_iterate m s hinv hc
  obtain ⟨hcont, _, _⟩ := createAndAddButton_step _ hi hp
  rw [hcont]
  rfl

/-- Witness for C1: three mount calls on the freshly initialized state
leave one button attached. -/
theorem mountButton_exactly_one_witness :
    (createAndAddButton^[3] readyState).buttonContainer.length = 1 :=
  mountButton_exactly_one readyState (by decide) (by decide) 3 (by decide)

/-- C2: a click on an initialized adapter records exactly the request
built by getPaymentDataRequest with props.amount and props.currency, and
that request has transactionInfo with totalPriceStatus FINAL, totalPrice
equal to the amount and currencyCode equal to the currency. -/
theorem paymentDataRequest_transactionInfo (props : Props) (s : AdapterState)
    (hc : s.paymentsClient = true) :
    (onGooglePayButtonClicked props s).requests =
      s.requests ++ [getPaymentDataRequest props props.amount props.currency] ∧
    (getPaymentDataRequest props props.amount props.currency).transactionInfo =
      TransactionInfo.mk "FINAL" props.amount props.currency := by
  refine ⟨?_, rfl⟩
  simp [onGooglePayButtonClicked, getPaymentDataRequestDefault, hc]

/-- The props of the worked spec example: amount 10.00, currency USD. -/
def sampleProps : Props := { defaultProps with amount := "10.00", currency := "USD" }

/-- Witness for C2 at amount 10.00 and currency USD. -/
theorem paymentDataRequest_transactionInfo_witness :
    (onGooglePayButtonClicked sampleProps readyState).requests =
      readyState.requests ++ [getPaymentDataRequest sampleProps "10.00" "USD"] ∧
    (getPaymentDataRequest sampleProps "10.00" "USD").transactionInfo =
      TransactionInfo.mk "FINAL" "10.00" "USD" :=
  paymentDataRequest_transactionInfo sampleProps readyState (by decide)

end FastCheckout

namespace FastCheckout

/-- C3: the code violates the teardown-discard property.  From the
initialized state, a click issues a loadPaymentData promise; after
onBeforeUnmount runs, the promise resolution still executes
handlePaymentSuccess: a success event is emitted, the status string is
mutated, and a backend POST is issued, all after teardown completed. -/
theorem teardown_discard_violated :
    (run defaultProps readyState [Action.click, Action.teardown]).tornDown = true ∧
    (step defaultProps (run defaultProps readyState [Action.click, Action.teardown])
        (Action.resolvePayment 0 7 (FetchOutcome.resolved true true))).events =
      (run defaultProps readyState [Action.click, Action.teardown]).events
        ++ [Event.success 7] ∧
    (step defaultProps (run defaultProps readyState [Action.click, Action.teardown])
        (Action.resolvePayment 0 7 (FetchOutcome.resolved true true))).status ≠
      (run defaultProps readyState [Action.click, Action.teardown]).status ∧
    (step defaultProps (run defaultProps readyState [Action.click, Action.teardown])
        (Action.resolvePayment 0 7 (FetchOutcome.resolved true true))).posts = 1 := by
  decide

/-- C4: the code has no double-click guard.  On the initialized adapter,
two consecutive clicks leave two loadPaymentData promises outstanding at
once. -/
theorem double_click_not_guarded :
    readyState.paymentsClient = true ∧
    (run defaultProps readyState [Action.click, Action.click]).pending.length = 2 := by
  decide

/-- Counterexample for C5: a relay fetch that resolves with a non-2xx
status and an unparseable body is not reported as an error: no error
event is emitted and the status becomes the processed-payment message,
because the source never checks res.ok and swallows json() failures. -/
theorem relay_non2xx_not_error :
    ¬ Event.error ∈
        (handlePaymentSuccess defaultProps 7 (FetchOutcome.resolved false false)
          readyState).events ∧
    (handlePaymentSuccess defaultProps 7 (FetchOutcome.resolved false false)
        readyState).status = "Server processed payment." ∧
    Event.success 7 ∈
      (handlePaymentSuccess defaultProps 7 (FetchOutcome.resolved false false)
        readyState).events := by
  decide

/-- C5 (amended): only a relay fetch that rejects (network error) is
reported as an error: an error event is emitted and the status becomes
the relay-failure message; the success event emitted beforehand is kept
and no earlier event is retracted. -/
theorem relay_rejection_reported (props : Props) (pd : Nat) (s : AdapterState)
    (h : props.autoSendToServer = true) :
    Event.error ∈ (handlePaymentSuccess props pd FetchOutcome.rejected s).events ∧
    (handlePaymentSuccess props pd FetchOutcome.rejected s).status =
      "Error sending token to server; see console." ∧
    Event.success pd ∈ (handlePaymentSuccess props pd FetchOutcome.rejected s).events ∧
    List.Sublist s.events (handlePaymentSuccess props pd FetchOutcome.rejected s).events := by
  refine ⟨?_, ?_, ?_, ?_⟩ <;>
    simp [handlePaymentSuccess, updateStatus, h]

/-- Witness for C5 (amended) at the initialized state with default
props. -/
theorem relay_rejection_reported_witness :
    Event.error ∈ (handlePaymentSuccess defaultProps 7 FetchOutcome.rejected
      readyState).events ∧
    (handlePaymentSuccess defaultProps 7 FetchOutcome.rejected readyState).status =
      "Error sending token to server; see console." ∧
    Event.success 7 ∈ (handlePaymentSuccess defaultProps 7 FetchOutcome.rejected
      readyState).events ∧
    List.Sublist readyState.events (handlePaymentSuccess defaultProps 7
      FetchOutcome.rejected readyState).events :=
  relay_rejection_reported defaultProps 7 readyState (by decide)

/-- C6: with autoSendToServer disabled, a successful vendor payment
emits the success event with the paymentData and issues no backend POST,
whatever the relay outcome would have been. -/
theorem no_post_when_autoSend_disabled (props : Props) (pd : Nat)
    (outcome : FetchOutcome) (s : AdapterState)
    (h : props.autoSendToServer = false) :
    (handlePaymentSuccess props pd outcome s).posts = s.posts ∧
    (handlePaymentSuccess props pd outcome s).events =
      s.events ++ [Event.success pd] := by
  simp [handlePaymentSuccess, updateStatus, h]

/-- The default props with the auto-relay flag turned off. -/
def noRelayProps : Props := { defaultProps with autoSendToServer := false }

/-- Witness for C6. -/
theorem no_post_when_autoSend_disabled_witness :
    (handlePaymentSuccess noRelayProps 7 (FetchOutcome.resolved true true)
        readyState).posts = readyState.posts ∧
    (handlePaymentSuccess noRelayProps 7 (FetchOutcome.resolved true true)
        readyState).events = readyState.events ++ [Event.success 7] :=
  no_post_when_autoSend_disabled noRelayProps 7 (FetchOutcome.resolved true true)
    readyState (by decide)

end FastCheckout

namespace FastCheckout

/-- C7: when the script is available (already present or loading
succeeds) and isReadyToPay resolves with a negative result, initGooglePay
mounts no button: the container and the tracked button element are
unchanged, the status is the unavailable message and a ready false event
is emitted. -/
theorem negative_readiness_no_button (scriptLoads : Bool) (s : AdapterState)
    (h : s.googleApiPresent = true ∨ scriptLoads = true) :
    (initGooglePay scriptLoads (ReadyOutcome.ok false) s).buttonContainer =
      s.buttonContainer ∧
    (initGooglePay scriptLoads (ReadyOutcome.ok false) s).buttonElement =
      s.buttonElement ∧
    (initGooglePay scriptLoads (ReadyOutcome.ok false) s).status =
      "Google Pay is not available in this environment/profile." ∧
    (initGooglePay scriptLoads (ReadyOutcome.ok false) s).events =
      s.events ++ [Event.ready false] := by
  by_cases hg : s.googleApiPresent
  · simp [initGooglePay, loadGooglePayScript, initPaymentsClient, updateStatus, hg]
  · rcases h with h | h
    · exact absurd h (by simp [hg])
    · simp [initGooglePay, loadGooglePayScript, initPaymentsClient, updateStatus, hg, h]

/-- Witness for C7 from the setup state with a loading script. -/
theorem negative_readiness_no_button_witness :
    (initGooglePay true (ReadyOutcome.ok false) initialState).buttonContainer =
      initialState.buttonContainer ∧
    (initGooglePay true (ReadyOutcome.ok false) initialState).buttonElement =
      initialState.buttonElement ∧
    (initGooglePay true (ReadyOutcome.ok false) initialState).status =
      "Google Pay is not available in this environment/profile." ∧
    (initGooglePay true (ReadyOutcome.ok false) initialState).events =
      initialState.events ++ [Event.ready false] :=
  negative_readiness_no_button true initialState (Or.inr rfl)

lemma createAndAddButton_script_fields (s : AdapterState) :
    (createAndAddButton s).injectedScripts = s.injectedScripts ∧
    (createAndAddButton s).googleApiPresent = s.googleApiPresent := by
  unfold createAndAddButton
  rcases hb : s.buttonElement with _ | b <;>
    by_cases hc : s.paymentsClient = false <;>
      simp [hb, hc]
  by_cases hm : b ∈ s.buttonContainer <;> simp [hm]

lemma initGooglePay_no_reinjection (sl : Bool) (r : ReadyOutcome)
    (s : AdapterState) (h : s.googleApiPresent = true) :
    (initGooglePay sl r s).injectedScripts = s.injectedScripts ∧
    (initGooglePay sl r s).googleApiPresent = true := by
  rcases r with res | _
  · rcases res with _ | _
    · simp [initGooglePay, loadGooglePayScript, initPaymentsClient, updateStatus, h]
    · have hf := createAndAddButton_script_fields
        { initPaymentsClient s with
          events := (initPaymentsClient s).events ++ [Event.ready true] }
      simp [initGooglePay, loadGooglePayScript, updateStatus, h]
      simpa [initPaymentsClient, h] using hf
  · simp [initGooglePay, loadGooglePayScript, initPaymentsClient, updateStatus, h]

/-- C8: once the vendor payments API object is present on the page,
repeated initGooglePay runs inject no further script element: the
injected-script count never changes. -/
theorem script_injected_at_most_once (sl : Bool) (r : ReadyOutcome)
    (s : AdapterState) (h : s.googleApiPresent = true) (n : Nat) :
    ((initGooglePay sl r)^[n] s).injectedScripts = s.injectedScripts := by
  induction n generalizing s with
  | zero => rfl
  | succ m ih =>
      rw [Function.iterate_succ_apply]
      obtain ⟨h1, h2⟩ := initGooglePay_no_reinjection sl r s h
      rw [ih _ h2, h1]

/-- Witness for C8: two repeated runs with the API already present. -/
theorem script_injected_at_most_once_witness :
    ((initGooglePay true (ReadyOutcome.ok true))^[2]
        { initialState with googleApiPresent := true }).injectedScripts =
      ({ initialState with googleApiPresent := true } : AdapterState).injectedScripts :=
  script_injected_at_most_once true (ReadyOutcome.ok true)
    { initialState with googleApiPresent := true } rfl 2

/-- C9: a click while the payments client is null only sets the
not-initialized status message: no request is built, no loadPaymentData
promise is issued and no event is emitted. -/
theorem click_without_client (props : Props) (s : AdapterState)
    (h : s.paymentsClient = false) :
    onGooglePayButtonClicked props s =
      { s with status := "Payments client not initialized." } := by
  simp [onGooglePayButtonClicked, updateStatus, h]

/-- Witness for C9 at the setup state, where the client is null. -/
theorem click_without_client_witness :
    onGooglePayButtonClicked defaultProps initialState =
      { initialState with status := "Payments client not initialized." } :=
  click_without_client defaultProps initialState rfl

lemma foldl_add_map (f : CartItem → ℤ) (l : List CartItem) :
    ∀ a : ℤ, l.foldl (fun sum it => sum + f it) a = a + (l.map f).sum := by
  induction l with
  | nil => intro a; simp
  | cons x xs ih => intro a; simp [ih, add_assoc]

/-- C10: the second widget's total equals the sum over the cart items of
Math.round(price times 100) times the quantity, a missing or zero qty
counting as 1, and the empty cart totals exactly 0 cents. -/
theorem totalAmount_eq_sum (cart : List CartItem) :
    totalAmount cart = (cart.map itemAmount).sum ∧
    totalAmount [] = 0 ∧
    qtyOrOne none = 1 ∧ qtyOrOne (some 0) = 1 := by
  refine ⟨?_, rfl, rfl, rfl⟩
  have h := foldl_add_map itemAmount cart 0
  rw [zero_add] at h
  exact h

end FastCheckout
